import Mathlib

/-
Verification of the type-inference core of the rhombus-ai-test-app repository.

The Python sources embedded here:
  * inference/inference_engine.py  (class InferenceEngine)
  * inference/models.py            (DataFile.get_column_types / override_column_type)
  * inference/constants.py         (DataTypeConfig.is_valid_type)

Modelling conventions:
  * A pandas object column is a `List (Option String)`; `none` is the null
    marker (np.nan / None).
  * Machine floats are modelled by `ℚ` plus explicit infinity / NaN markers;
    the float rounding of Python's parsers is not reproduced (no claim
    depends on rounded values).
  * `re.match` / `re.search` on the engine's fixed pattern lists are modelled
    by a small regex interpreter covering exactly the constructs those
    patterns use (digit classes with bounded and unbounded repetition,
    literals, character sets, optional groups, whitespace star).
  * pandas `Series.sample(n, random_state=1)` is modelled by a deterministic
    LCG-driven selection-without-replacement; the numpy bit stream is not
    reproduced, but determinism, the fixed seed and the without-replacement
    selection are.
-/

namespace RhombusVerif

/-! ## Python string helpers -/

/-- Python `str.lower()` restricted to ASCII (all engine tokens are ASCII). -/
def pyLower (s : String) : String := ⟨s.data.map Char.toLower⟩

/-- Python `\s` character class (ASCII part). -/
def pyIsSpace (c : Char) : Bool :=
  c = ' ' ∨ c = '\t' ∨ c = '\n' ∨ c = '\r' ∨ c = '\x0b' ∨ c = '\x0c'

/-- Python `str.strip()`: remove leading and trailing whitespace. -/
def pyStrip (s : String) : String :=
  ⟨((s.data.dropWhile pyIsSpace).reverse.dropWhile pyIsSpace).reverse⟩

/-- Python `c in s` for a single character. -/
def pyContainsChar (s : String) (c : Char) : Bool := s.data.contains c

/-- Value of a digit string, e.g. `digitsToNat "042".toList = 42`. -/
def digitsToNat (ds : List Char) : Nat :=
  ds.foldl (fun a c => a * 10 + (c.toNat - 48)) 0

/-! ## Python dict as an insertion-ordered association list

Python `d[k] = v` keeps the key's insertion position when the key is present
and appends at the end otherwise; `d.update(e)` performs that assignment for
every item of `e` in order. Keys in the engine's dicts are unique. -/

/-- Python dict assignment `d[k] = v`. -/
def dictSet : List (String × α) → String → α → List (String × α)
  | [], k, v => [(k, v)]
  | (k', v') :: rest, k, v =>
      if k' = k then (k, v) :: rest else (k', v') :: dictSet rest k v

/-- Python `base.update(upd)`. -/
def dictUpdate (base upd : List (String × α)) : List (String × α) :=
  upd.foldl (fun d p => dictSet d p.1 p.2) base

/-- Python `d.get(k)` / `k in d` combined: first entry with the given key. -/
def dictLookup (d : List (String × α)) (k : String) : Option α :=
  (d.find? (fun p => p.1 = k)).map Prod.snd

/-! ## A small regex interpreter

The engine's DATE_PATTERNS, TIMEDELTA_PATTERNS and the complex-number
pattern only use: literal characters, `\d{m}`, `\d{m,n}`, `\d+`, `\s*`,
character sets (dash/slash, plus/minus), and optional groups `(...)?`, all anchored
with `^...$` for `re.match` tests. `matchFrom` returns the list of possible
unconsumed suffixes, so a full match exists iff `[]` is among them. -/

inductive RE where
  | emp : RE
  | lit (c : Char) : RE
  | anyOf (cs : List Char) : RE
  | digits (lo hi : Nat) : RE
  | digits1 : RE
  | wsStar : RE
  | opt (r : RE) : RE
  | seq (r1 r2 : RE) : RE

/-- Length of the maximal digit run at the head of the list. -/
def digitRun : List Char → Nat
  | c :: s => if c.isDigit then digitRun s + 1 else 0
  | [] => 0

/-- Length of the maximal whitespace run at the head of the list. -/
def wsRun : List Char → Nat
  | c :: s => if pyIsSpace c then wsRun s + 1 else 0
  | [] => 0

def RE.matchFrom : RE → List Char → List (List Char)
  | .emp, s => [s]
  | .lit _, [] => []
  | .lit c, a :: s => if a = c then [s] else []
  | .anyOf _, [] => []
  | .anyOf cs, a :: s => if cs.contains a then [s] else []
  | .digits lo hi, s =>
      let run := digitRun s
      if lo ≤ min hi run then
        (List.range (min hi run + 1 - lo)).map (fun j => s.drop (lo + j))
      else []
  | .digits1, s =>
      (List.range (digitRun s)).map (fun j => s.drop (j + 1))
  | .wsStar, s =>
      (List.range (wsRun s + 1)).map (fun j => s.drop j)
  | .opt r, s => s :: r.matchFrom s
  | .seq r1 r2, s => (r1.matchFrom s).flatMap r2.matchFrom

/-- Concatenation of a pattern list. -/
def seqList (rs : List RE) : RE := rs.foldr RE.seq RE.emp

/-- A literal word, e.g. `litStr "day"`. -/
def litStr (w : String) : RE := seqList (w.toList.map RE.lit)

/-- `re.match(p, s)` for a pattern of the form `^...$`: anchored full match.
(The `$`-before-final-newline subtlety of Python is irrelevant: every tested
cell has been stripped.) -/
def reFullMatch (r : RE) (s : String) : Bool :=
  (r.matchFrom s.toList).any (fun rest => rest = [])

/-- `\d{n}` -/
def dK (n : Nat) : RE := RE.digits n n

end RhombusVerif

namespace RhombusVerif

/-! ## InferenceEngine.DATE_PATTERNS (inference_engine.py lines 17-24) -/

/-- Pattern `^\d{4}-\d{2}-\d{2} \d{2}:\d{2}:\d{2}\.\d+$` -/
def datePat1 : RE := seqList [dK 4, .lit '-', dK 2, .lit '-', dK 2, .lit ' ',
  dK 2, .lit ':', dK 2, .lit ':', dK 2, .lit '.', .digits1]

/-- Pattern `^\d{4}-\d{2}-\d{2} \d{2}:\d{2}:\d{2}$` -/
def datePat2 : RE := seqList [dK 4, .lit '-', dK 2, .lit '-', dK 2, .lit ' ',
  dK 2, .lit ':', dK 2, .lit ':', dK 2]

/-- Pattern `^\d{2}-\d{2}-\d{4} \d{2}:\d{2}:\d{2}$` -/
def datePat3 : RE := seqList [dK 2, .lit '-', dK 2, .lit '-', dK 4, .lit ' ',
  dK 2, .lit ':', dK 2, .lit ':', dK 2]

/-- Pattern `^\d{2}/\d{2}/\d{4}$` -/
def datePat4 : RE := seqList [dK 2, .lit '/', dK 2, .lit '/', dK 4]

/-- Pattern `^\d{1,2}[-\/]\d{1,2}[-\/]\d{2,4}$` (the set holds dash and slash;
the slash is escaped here only to not end this comment). -/
def datePat5 : RE := seqList [.digits 1 2, .anyOf ['-', '/'], .digits 1 2,
  .anyOf ['-', '/'], .digits 2 4]

/-- Pattern `^\d{4}-\d{2}-\d{2}$` -/
def datePat6 : RE := seqList [dK 4, .lit '-', dK 2, .lit '-', dK 2]

def DATE_PATTERNS : List RE := [datePat1, datePat2, datePat3, datePat4, datePat5, datePat6]

/-- `any(re.match(pattern, str(x)) for pattern in date_patterns)` for a string cell. -/
def matchesAnyDate (s : String) : Bool := DATE_PATTERNS.any (fun r => reFullMatch r s)

/-! ## InferenceEngine.TIMEDELTA_PATTERNS (inference_engine.py lines 26-37) -/

/-- `^[-]?\d+\s*days?$` -/
def tdPat1 : RE := seqList [.opt (.lit '-'), .digits1, .wsStar, litStr "day", .opt (.lit 's')]

/-- `^[-]?\d+\s*d$` -/
def tdPat2 : RE := seqList [.opt (.lit '-'), .digits1, .wsStar, .lit 'd']

/-- `^(\d+):(\d{2})(:\d{2})?(\.\d+)?$` -/
def tdPat3 : RE := seqList [.digits1, .lit ':', dK 2,
  .opt (seqList [.lit ':', dK 2]), .opt (seqList [.lit '.', .digits1])]

/-- `^[-]?\d+\s*hours?$` -/
def tdPat4 : RE := seqList [.opt (.lit '-'), .digits1, .wsStar, litStr "hour", .opt (.lit 's')]

/-- `^[-]?\d+\s*h$` -/
def tdPat5 : RE := seqList [.opt (.lit '-'), .digits1, .wsStar, .lit 'h']

/-- `^[-]?\d+\s*minutes?$` -/
def tdPat6 : RE := seqList [.opt (.lit '-'), .digits1, .wsStar, litStr "minute", .opt (.lit 's')]

/-- `^[-]?\d+\s*m$` -/
def tdPat7 : RE := seqList [.opt (.lit '-'), .digits1, .wsStar, .lit 'm']

/-- `^[-]?\d+\s*seconds?$` -/
def tdPat8 : RE := seqList [.opt (.lit '-'), .digits1, .wsStar, litStr "second", .opt (.lit 's')]

/-- `^[-]?\d+\s*s$` -/
def tdPat9 : RE := seqList [.opt (.lit '-'), .digits1, .wsStar, .lit 's']

/-- `^[-]?\d+\s*days?\s*[+-]?\s*\d{2}:\d{2}(:\d{2})?(\.\d+)?$` -/
def tdPat10 : RE := seqList [.opt (.lit '-'), .digits1, .wsStar, litStr "day", .opt (.lit 's'),
  .wsStar, .opt (.anyOf ['+', '-']), .wsStar, dK 2, .lit ':', dK 2,
  .opt (seqList [.lit ':', dK 2]), .opt (seqList [.lit '.', .digits1])]

def TIMEDELTA_PATTERNS : List RE :=
  [tdPat1, tdPat2, tdPat3, tdPat4, tdPat5, tdPat6, tdPat7, tdPat8, tdPat9, tdPat10]

/-- The complex-number pattern of `_infer_complex`:
`^\(?-?\d+(\.\d+)?[+-]\d+(\.\d+)?j\)?$` (note: the two parentheses are
independently optional, so the pattern also matches unbalanced forms). -/
def complexRE : RE := seqList [.opt (.lit '('), .opt (.lit '-'), .digits1,
  .opt (seqList [.lit '.', .digits1]), .anyOf ['+', '-'], .digits1,
  .opt (seqList [.lit '.', .digits1]), .lit 'j', .opt (.lit ')')]

/-! ## Per-value numeric parsing

`IEEE` float rounding is not reproduced: decimal literals are kept exact in
`ℚ`. The distinction the engine observes (parse failure / NaN vs a finite or
infinite number) is preserved exactly. -/

/-- A parsed (non-null) float value: finite, or signed infinity. -/
inductive PFin where
  | fin (q : ℚ) : PFin
  | inf (pos : Bool) : PFin
deriving DecidableEq

/-- Strip one leading sign; returns (isNegative, rest). -/
def splitSign : List Char → Bool × List Char
  | '-' :: r => (true, r)
  | '+' :: r => (false, r)
  | s => (false, s)

/-- Parse an unsigned decimal literal with optional fraction and optional
exponent (`123`, `1.5`, `.5`, `5.`, `1e3`, `2.5E-2`), returning its exact
value and the unconsumed suffix. Mirrors the common core of Python's
`float()` / `complex()` literal grammar and of pandas' `to_numeric` parser
(underscored literals and hex floats are not modelled; no claim uses them). -/
def parseFloatLit (cs : List Char) : Option (ℚ × List Char) :=
  let ip := cs.takeWhile Char.isDigit
  let r1 := cs.dropWhile Char.isDigit
  let core : Option (ℚ × List Char) :=
    match r1 with
    | '.' :: r2 =>
        let fp := r2.takeWhile Char.isDigit
        let r3 := r2.dropWhile Char.isDigit
        if ip.isEmpty ∧ fp.isEmpty then none
        else some ((digitsToNat ip : ℚ) + (digitsToNat fp : ℚ) / ((10 : ℚ) ^ fp.length), r3)
    | _ => if ip.isEmpty then none else some ((digitsToNat ip : ℚ), r1)
  match core with
  | none => none
  | some (q, rest) =>
      match rest with
      | c :: r4 =>
          if c = 'e' ∨ c = 'E' then
            let (negE, r5) := splitSign r4
            let ed := r5.takeWhile Char.isDigit
            let r6 := r5.dropWhile Char.isDigit
            if ed.isEmpty then some (q, rest)
            else if negE then some (q / ((10 : ℚ) ^ digitsToNat ed), r6)
            else some (q * ((10 : ℚ) ^ digitsToNat ed), r6)
          else some (q, rest)
      | [] => some (q, [])

/-- Case-insensitive comparison against an ASCII keyword. -/
def eqKeyword (cs : List Char) (w : String) : Bool :=
  cs.map Char.toLower = w.toList

/-- One value under `pd.to_numeric(..., errors="coerce")`:
`some` is a non-null number (finite or infinite), `none` is NaN — produced
equally by a coercion failure, by the literal `nan`, or by a null input;
pandas makes the three indistinguishable in the coerced column. Like the
pandas parser, a numeric literal is tried first and the `inf` keywords only
on strings that are not numeric literals; `nan` (which pandas parses to the
NaN value) needs no separate case, since NaN is `none` here either way. -/
def pyNumParse (s : String) : Option PFin :=
  let (neg, r) := splitSign s.toList
  match parseFloatLit r with
  | some (q, []) => some (.fin (if neg then -q else q))
  | _ =>
      if eqKeyword r "inf" ∨ eqKeyword r "infinity" then some (.inf (!neg))
      else none

/-- Python `complex(s)` on an already-stripped string: `some (re, im)` on
success, `none` when `complex()` raises `ValueError`. Parentheses must be
balanced; the `inf` / `nan` keywords inside complex literals are not
modelled (no claim uses them). -/
def pyComplexParse (s : String) : Option (ℚ × ℚ) :=
  let cs := s.toList
  let inner : Option (List Char) :=
    match cs with
    | '(' :: rest =>
        if rest.getLast? = some ')' then some rest.dropLast else none
    | _ => if cs.contains '(' ∨ cs.contains ')' then none else some cs
  match inner with
  | none => none
  | some body =>
      let (neg1, r1) := splitSign body
      let sgn1 : ℚ → ℚ := fun q => if neg1 then -q else q
      match parseFloatLit r1 with
      | some (q1, restA) =>
          match restA with
          | [] => some (sgn1 q1, 0)
          | ['j'] => some (0, sgn1 q1)
          | c :: r2 =>
              if c = '+' ∨ c = '-' then
                let sgn2 : ℚ → ℚ := fun q => if c = '-' then -q else q
                match parseFloatLit r2 with
                | some (q2, ['j']) => some (sgn1 q1, sgn2 q2)
                | some _ => none
                | none => if r2 = ['j'] then some (sgn1 q1, sgn2 1) else none
              else none
      | none =>
          if r1 = ['j'] then some (0, sgn1 1) else none

end RhombusVerif

namespace RhombusVerif

/-! ## Typed output cells and Python-level errors -/

/-- A cell of a typed output column. `null` stands uniformly for the pandas
missing markers (np.nan / NaT / None). Datetime components are year, month,
day, hour, minute, second, nanoseconds; timedeltas are total nanoseconds. -/
inductive OutCell where
  | null : OutCell
  | str (s : String) : OutCell
  | boolv (b : Bool) : OutCell
  | numv (q : ℚ) : OutCell
  | infv (pos : Bool) : OutCell
  | complexv (re im : ℚ) : OutCell
  | datev (y mo d h mi sec ns : Nat) : OutCell
  | deltav (ns : Int) : OutCell
deriving DecidableEq

/-- Python exceptions the engine can hit. -/
inductive PyErr where
  | valueError (msg : String) : PyErr
  | zeroDivisionError : PyErr
  | typeError (msg : String) : PyErr
  | overflowError : PyErr
deriving DecidableEq

/-- Message text used when `infer` wraps an exception into
`ValueError(f"Error reading file: {e!s}")`. -/
def pyErrMsg : PyErr → String
  | .valueError m => m
  | .zeroDivisionError => "division by zero"
  | .typeError m => m
  | .overflowError => "overflow in timedelta operation"

/-- `series.apply(f)` for a fallible per-value function: the first raised
exception aborts the whole apply. (Same semantics as `List.mapM` over
`Except`, written recursively for easy reasoning.) -/
def mapExcept (f : α → Except PyErr β) : List α → Except PyErr (List β)
  | [] => .ok []
  | a :: l =>
      match f a with
      | .error e => .error e
      | .ok b =>
          match mapExcept f l with
          | .error e => .error e
          | .ok bs => .ok (b :: bs)

/-- A pandas object column: nullable string cells. -/
abbrev Col := List (Option String)

/-! ## Deterministic sampling (pandas `.sample(n, random_state=1)`)

The engine always passes `random_state=1`, so the drawn sample is a fixed
function of the data. We model it as an LCG-driven selection without
replacement; the exact numpy Mersenne-Twister stream is not reproduced, but
the properties the engine relies on — determinism under the fixed seed and
an n-element without-replacement selection — are. -/

def lcgNext (s : Nat) : Nat := (s * 1103515245 + 12345) % 2147483648

/-- Select `n` elements without replacement, deterministically from `seed`. -/
def sampleSelect (seed : Nat) : Nat → List α → List α
  | 0, _ => []
  | _ + 1, [] => []
  | n + 1, x :: xs =>
      let s' := lcgNext seed
      let i := s' % (x :: xs).length
      match (x :: xs).get? i with
      | some y => y :: sampleSelect s' n ((x :: xs).eraseIdx i)
      | none => []

/-! ## InferenceEngine._get_boolean_mapping (lines 39-46) -/

/-- `str(val).lower()` over `["true", "yes", "y", "1", "t", True, 1]`. -/
def trueValues : List String := ["true", "yes", "y", "1", "t", "true", "1"]

/-- `str(val).lower()` over `["false", "no", "n", "0", "f", False, 0]`. -/
def falseValues : List String := ["false", "no", "n", "0", "f", "false", "0"]

/-- The dict built by `_get_boolean_mapping`: true tokens inserted first,
then updated with the false tokens. -/
def booleanMapping : List (String × Bool) :=
  dictUpdate (trueValues.foldl (fun d k => dictSet d k true) [])
    (falseValues.foldl (fun d k => dictSet d k false) [])

/-! ## InferenceEngine._infer_boolean (lines 111-117) -/

/-- `_infer_boolean`: claims iff every non-null value, lower-cased, is a key
of the mapping (`dropna().str.lower().isin(keys).all()`; vacuously true on
an empty or all-null column). On success the column becomes
`series.str.lower().map(mapping).astype("bool")`: mapped values for the
keys, and `bool(nan) = True` for anything the map left as NaN — in
particular null cells come out as `True`, not null. -/
def inferBoolean (bmap : List (String × Bool)) (col : Col) : Option (List OutCell) :=
  if (col.filterMap id).all (fun s => (dictLookup bmap (pyLower s)).isSome) then
    some (col.map (fun c =>
      match c with
      | some s =>
          match dictLookup bmap (pyLower s) with
          | some b => .boolv b
          | none => .boolv true
      | none => .boolv true))
  else none

/-! ## InferenceEngine._infer_complex (lines 119-128) -/

/-- The per-value body of `series.apply` in `_infer_complex`:
`complex(x) if isinstance(x, str) and ("+" in x or "-" in x) else np.nan`.
Note the condition is *not* the regex: any string containing a plus or a
minus is fed to `complex()`, which raises `ValueError` on malformed input
(modelled as `.error`). -/
def complexApplyCell (c : Option String) : Except PyErr OutCell :=
  match c with
  | some s =>
      if pyContainsChar s '+' ∨ pyContainsChar s '-' then
        match pyComplexParse s with
        | some (re, im) => .ok (.complexv re im)
        | none => .error (.valueError ("complex() arg is a malformed string: " ++ s))
      else .ok .null
  | none => .ok .null

def isComplexCell : OutCell → Bool
  | .complexv _ _ => true
  | _ => false

/-- Whether a cell matches the complex-number regex (non-strings never do). -/
def complexMatchCell : Option String → Bool
  | some s => reFullMatch complexRE s
  | none => false

/-- `_infer_complex`: if any value matches the regex, apply the conversion to
every value and claim iff some converted value is a complex instance. The
`.ok none` after a conversion that produced no complex value returns the
mutated series in the source; that branch is unreachable in practice, since
a regex-matching value either parses to a complex or raises. -/
def inferComplex (col : Col) : Except PyErr (Option (List OutCell)) :=
  if col.any complexMatchCell then
    match mapExcept complexApplyCell col with
    | .error e => .error e
    | .ok out => if out.any isComplexCell then .ok (some out) else .ok none
  else .ok none

/-! ## InferenceEngine._infer_numeric (lines 130-136) -/

/-- One cell of `pd.to_numeric(series, errors="coerce")`. -/
def toNumericCell (c : Option String) : Option PFin := c.bind pyNumParse

/-- Render a coerced numeric cell.  -/
def numOutCell : Option PFin → OutCell
  | some (.fin q) => .numv q
  | some (.inf b) => .infv b
  | none => .null

/-- `_infer_numeric`: coerce every value; claim iff at least one non-NaN
resulted (`notna().sum() > 0`); the returned dtype string is `"float64"`
when the coerced column contains a NaN (`hasnans`) and `"int64"` otherwise —
the actual values are not inspected, so a column of fractional literals is
still tagged `"int64"`. -/
def inferNumeric (col : Col) : Option (List OutCell × String) :=
  let numeric := col.map toNumericCell
  if 0 < numeric.countP (fun c => c.isSome) then
    some (numeric.map numOutCell,
      if numeric.any (fun c => c.isNone) then "float64" else "int64")
  else none

/-- An int64 integer literal as `pd.to_numeric` sees it: an optional sign
followed only by digits, whose value fits in int64 (larger magnitudes force
a non-int64 result dtype). -/
def isIntLit (s : String) : Bool :=
  let (neg, r) := splitSign s.toList
  !r.isEmpty && r.all Char.isDigit &&
    (if neg then digitsToNat r ≤ 2 ^ 63 else digitsToNat r ≤ 2 ^ 63 - 1)

/-- Whether a cell is a non-null int64 integer literal. -/
def intLitCell : Option String → Bool
  | some s => isIntLit s
  | none => false

/-- The pandas dtype of the series `pd.to_numeric(col, errors="coerce")`
returns — the dtype `tasks.process_file` later reports from `df.dtypes` for
a Numeric-claimed column, which `_infer_numeric`'s discarded tag string can
disagree with: the series is int64 exactly when every cell is an integer
literal, and float64 as soon as any cell is null, fails to coerce, is the
literal `nan`, is infinite, or is written in a fractional or exponent
form. (The all-cells condition is vacuous on an empty column, which never
reaches this point claimed.) -/
def toNumericDtype (col : Col) : String :=
  if col.all intLitCell then "int64" else "float64"

end RhombusVerif

namespace RhombusVerif

/-! ## InferenceEngine._infer_datetime (lines 138-169) -/

/-- Consume exactly `k` digits. -/
def takeKDigits (k : Nat) (cs : List Char) : Option (Nat × List Char) :=
  let ds := cs.take k
  if ds.length = k ∧ ds.all Char.isDigit then some (digitsToNat ds, cs.drop k) else none

/-- Consume one expected character. -/
def expectChar (c : Char) : List Char → Option (List Char)
  | a :: r => if a = c then some r else none
  | [] => none

/-- Nanoseconds from a fractional-seconds digit string (at most 9 digits kept). -/
def fracDigitsToNs (ds : List Char) : Nat :=
  digitsToNat (ds.take 9) * 10 ^ (9 - (ds.take 9).length)

/-- Per-value datetime parsing, used to model both the polars bulk parse
(`str.to_datetime(format=None, strict=False)`, non-parseable values become
null) and the pandas fallback (`pd.to_datetime(..., errors="coerce")`). The
model covers the ISO forms `YYYY-MM-DD`, `YYYY-MM-DD HH:MM:SS` and
`YYYY-MM-DD HH:MM:SS.fff`, with field-range validity checks; no claim
depends on the value of a parsed datetime, only on the detector's claim
decision and cell positions. -/
def dtParseCell (s : String) : Option OutCell := do
  let cs := s.toList
  let (y, r1) ← takeKDigits 4 cs
  let r2 ← expectChar '-' r1
  let (mo, r3) ← takeKDigits 2 r2
  let r4 ← expectChar '-' r3
  let (d, r5) ← takeKDigits 2 r4
  if ¬(1 ≤ mo ∧ mo ≤ 12 ∧ 1 ≤ d ∧ d ≤ 31) then none
  else
    match r5 with
    | [] => some (.datev y mo d 0 0 0 0)
    | _ => do
      let r6 ← expectChar ' ' r5
      let (h, r7) ← takeKDigits 2 r6
      let r8 ← expectChar ':' r7
      let (mi, r9) ← takeKDigits 2 r8
      let r10 ← expectChar ':' r9
      let (sec, r11) ← takeKDigits 2 r10
      if ¬(h ≤ 23 ∧ mi ≤ 59 ∧ sec ≤ 59) then none
      else
        match r11 with
        | [] => some (.datev y mo d h mi sec 0)
        | '.' :: fs =>
            if fs ≠ [] ∧ fs.all Char.isDigit then
              some (.datev y mo d h mi sec (fracDigitsToNs fs))
            else none
        | _ => none

/-- The polars bulk conversion `str.to_datetime(format=None, strict=False)`:
`strict=False` only governs per-value parse failures (they become null); the
*format inference* step can still fail, raising `ComputeError` ("could not
find an appropriate format to parse dates") — the exception the source
catches. Modelled: polars infers from the first non-null value; if no known
format applies to it the call errors, otherwise every value is parsed and
non-parseable values become null. (Polars fixes the single inferred format
for the whole column; the model re-tries the known formats per value — the
difference is invisible to the claims, which use uniform columns. A column
with no non-null value never reaches this call through the chain.) -/
def polarsToDatetime (col : Col) : Except PyErr (List OutCell) :=
  match col.filterMap id with
  | [] => .ok (col.map (fun _ => .null))
  | v :: _ =>
      if (dtParseCell v).isSome then
        .ok (col.map (fun c =>
          match c with
          | some s => (dtParseCell s).getD .null
          | none => .null))
      else .error (.valueError "could not find an appropriate format to parse dates")

/-- `pd.to_datetime(series, errors="coerce")` in the fallback branch. -/
def pandasToDatetimeCoerce (col : Col) : List OutCell :=
  col.map (fun c =>
    match c with
    | some s => (dtParseCell s).getD .null
    | none => .null)

/-- The sample of `_infer_datetime`:
`series.dropna().astype(str).sample(n=min(sample_size, len(series.dropna())), random_state=1)`. -/
def sampleOfColumn (col : Col) (sampleSize : Nat) : List String :=
  let nonNull := col.filterMap id
  sampleSelect 1 (min sampleSize nonNull.length) nonNull

def isNullCell : OutCell → Bool
  | .null => true
  | _ => false

/-- Outcome of `_infer_datetime`: it claims the column, or it declines; when
it declines *after* having entered the pandas-coerce fallback, it has
already rebound `series` to the coerced (all-NaT) result, so the column it
hands to the rest of the chain is the mutated one (source line 169 returns
the coerced series with tag None in that path). -/
inductive DatetimeResult where
  | claimed (out : List OutCell) : DatetimeResult
  | declinedMutated (out : List OutCell) : DatetimeResult
  | declined : DatetimeResult
deriving DecidableEq

def dtClaims : DatetimeResult → Bool
  | .claimed _ => true
  | _ => false

/-- `_infer_datetime`: draw the fixed-seed sample, test each sampled value
against the date patterns, and proceed only if the match fraction strictly
exceeds one half (`date_matches.mean() > 0.5`; the mean of an empty sample
is NaN, which fails the comparison — modelled by `2 * matches > length`
being false at length 0). Past the threshold: claim with the polars bulk
conversion if it does not raise; if it raises, fall back to
`pd.to_datetime(series, errors="coerce")` and claim only if at least one
value parsed (`notna().sum() > 0`) — otherwise decline, leaving the
coerced all-NaT series in place of the column. -/
def inferDatetime (col : Col) (sampleSize : Nat) : DatetimeResult :=
  let sample := sampleOfColumn col sampleSize
  if sample.length < 2 * sample.countP matchesAnyDate then
    match polarsToDatetime col with
    | .ok out => .claimed out
    | .error _ =>
        let out := pandasToDatetimeCoerce col
        if 0 < out.countP (fun c => !isNullCell c) then .claimed out
        else .declinedMutated out
  else .declined

/-! ## InferenceEngine._parse_timedelta (lines 191-205) and _infer_timedelta (171-182) -/

/-- `re.search(r"([-]?\d+)\s*days?", value)` tried at one start position:
optional minus, a maximal nonempty digit run, maximal whitespace, then the
literal `day` (the optional trailing `s` affects nothing). Returns group 1
as an integer. -/
def tryDaysAt (s : List Char) : Option Int :=
  let (neg, r) :=
    match s with
    | '-' :: r => (true, r)
    | _ => (false, s)
  let ds := r.takeWhile Char.isDigit
  let r2 := r.dropWhile Char.isDigit
  if ds.isEmpty then none
  else
    match r2.dropWhile pyIsSpace with
    | 'd' :: 'a' :: 'y' :: _ =>
        some ((if neg then -1 else 1) * (digitsToNat ds : Int))
    | _ => none

/-- Leftmost `re.search` for the day-count pattern. -/
def searchDays : List Char → Option Int
  | [] => none
  | c :: rest =>
      match tryDaysAt (c :: rest) with
      | some n => some n
      | none => searchDays rest

/-- `re.search(r"(\d{1,2}):(\d{2})(:\d{2}(\.\d+)?)?", value)` tried at one
start position; `\d{1,2}` is greedy (two digits preferred, which is exact
here because a digit can never equal the following `:`). Returns
(hours, minutes, seconds-with-fraction). -/
def tryClockAt (s : List Char) : Option (Nat × Nat × ℚ) := do
  let (h, r1) ←
    match takeKDigits 2 s with
    | some (h2, r) =>
        if (expectChar ':' r).isSome then some (h2, r) else
          match takeKDigits 1 s with
          | some (h1, r') => if (expectChar ':' r').isSome then some (h1, r') else none
          | none => none
    | none =>
        match takeKDigits 1 s with
        | some (h1, r') => if (expectChar ':' r').isSome then some (h1, r') else none
        | none => none
  let r2 ← expectChar ':' r1
  let (mi, r3) ← takeKDigits 2 r2
  let secPart : ℚ :=
    match expectChar ':' r3 with
    | some r4 =>
        match takeKDigits 2 r4 with
        | some (sec, r5) =>
            match r5 with
            | '.' :: fs =>
                let fd := fs.takeWhile Char.isDigit
                if fd.isEmpty then (sec : ℚ)
                else (sec : ℚ) + (digitsToNat fd : ℚ) / ((10 : ℚ) ^ fd.length)
            | _ => (sec : ℚ)
        | none => 0
    | none => 0
  some (h, mi, secPart)

/-- Leftmost `re.search` for the clock pattern. -/
def searchClock : List Char → Option (Nat × Nat × ℚ)
  | [] => none
  | c :: rest =>
      match tryClockAt (c :: rest) with
      | some v => some v
      | none => searchClock rest

/-- pd.Timedelta bound: |total nanoseconds| must stay below 2^63 (the
minimal int64 value is reserved for NaT); exceeding it raises. -/
def checkTimedeltaNs (ns : Int) : Except PyErr Int :=
  if ns.natAbs ≤ 2 ^ 63 - 1 then .ok ns else .error .overflowError

/-- `_parse_timedelta` on one cell. Day and clock components are searched
independently and summed (`pd.Timedelta(days=...) + pd.Timedelta(hours=...,
minutes=..., seconds=...)`, each construction and the sum bound-checked);
a value matching neither sub-pattern parses to a zero duration. The
float-seconds value is kept exact in `ℚ` and floored to nanoseconds.
Applied to a null cell, `re.search` raises `TypeError` (in the pipeline the
detector only ever sees strings). -/
def parseTimedeltaCell (c : Option String) : Except PyErr OutCell :=
  match c with
  | none => .error (.typeError "expected string or bytes-like object")
  | some v => do
      let daysNs : Int ←
        match searchDays v.toList with
        | some d => checkTimedeltaNs (d * 86400 * 1000000000)
        | none => .ok 0
      let timeNs : Int ←
        match searchClock v.toList with
        | some (h, mi, sec) =>
            checkTimedeltaNs (((h : ℚ) * 3600 + (mi : ℚ) * 60 + sec) * 1000000000).floor
        | none => .ok 0
      let total ← checkTimedeltaNs (daysNs + timeNs)
      .ok (.deltav total)

/-- `_infer_timedelta`: claims iff any non-null value, stripped and
lower-cased, matches one of the timedelta patterns; on success every cell
goes through `_parse_timedelta`. -/
def inferTimedelta (col : Col) : Except PyErr (Option (List OutCell)) :=
  if (col.filterMap id).any (fun s =>
      TIMEDELTA_PATTERNS.any (fun r => reFullMatch r (pyLower (pyStrip s)))) then
    match mapExcept parseTimedeltaCell col with
    | .error e => .error e
    | .ok out => .ok (some out)
  else .ok none

/-! ## InferenceEngine._infer_categorical (lines 184-189) -/

/-- A cell kept as a string by `astype("category")` / `astype("object")`. -/
def catOutCell : Option String → OutCell
  | some s => .str s
  | none => .null

/-- `_infer_categorical`: `unique_ratio = series.nunique(dropna=True) /
len(series)`; `"category"` below one half, `"object"` otherwise. The
division is unguarded: on a zero-row column it raises ZeroDivisionError. -/
def inferCategorical (col : Col) : Except PyErr (List OutCell × String) :=
  if col.length = 0 then .error .zeroDivisionError
  else if 2 * (col.filterMap id).dedup.length < col.length then
    .ok (col.map catOutCell, "category")
  else .ok (col.map catOutCell, "object")

/-! ## InferenceEngine._infer_column_type (lines 78-97) -/

/-- The detector chain in its fixed order: Boolean, Complex, Numeric,
Datetime, Timedelta, then the categorical fallback. The first detector that
claims wins; exceptions abort the column. -/
def inferColumnType (col : Col) (sampleSize : Nat) : Except PyErr (List OutCell × String) :=
  match inferBoolean booleanMapping col with
  | some out => .ok (out, "bool")
  | none =>
    match inferComplex col with
    | .error e => .error e
    | .ok (some out) => .ok (out, "complex128")
    | .ok none =>
      match inferNumeric col with
      | some (out, dt) => .ok (out, dt)
      | none =>
        match inferDatetime col sampleSize with
        | .claimed out => .ok (out, "datetime64[ns]")
        | .declinedMutated out =>
            -- The all-NaT coerced series replaced the column (every cell of
            -- `out` is null by the fallback's `notna().sum() = 0` branch
            -- condition). The timedelta detector then sees no non-null value
            -- (`dropna()` is empty, so its `.any()` is False) and declines;
            -- the categorical fallback computes `nunique(dropna=True) = 0`
            -- over this column, so `unique_ratio = 0 < 0.5` whenever the
            -- unguarded division does not fail, and `astype("category")`
            -- keeps the all-null cells.
            if out.length = 0 then .error .zeroDivisionError
            else .ok (out, "category")
        | .declined =>
          match inferTimedelta col with
          | .error e => .error e
          | .ok (some out) => .ok (out, "timedelta64[ns]")
          | .ok none => inferCategorical col

end RhombusVerif

namespace RhombusVerif

/-! ## InferenceEngine._clean_column (lines 71-76) and the per-column body of infer (48-69) -/

/-- The token list of `_clean_column`'s `series.replace([...], np.nan)`. -/
def nullTokens : List String := ["None", "NaN", "null", "Null", "not available", "Not Available"]

/-- `_clean_column` on one cell: replacement is by exact (untrimmed) string
equality; null cells stay null. -/
def cleanCell (c : Option String) : Option String :=
  match c with
  | some s => if nullTokens.contains s then none else some s
  | none => none

def cleanColumn (col : Col) : Col := col.map cleanCell

/-- One cell of `series.astype(str)` on an object column in pandas 2.x:
non-null values keep their string form and *nulls are stringified*
(`_astype_nansafe` calls `ensure_string_array` with `skipna=False`, so
`np.nan` becomes the string `"nan"`). The nulls reaching this cast in the
pipeline are the np.nan introduced by `_clean_column`; a reader-produced
`None` would stringify to `"None"` instead — the claims only exercise the
np.nan case. -/
def astypeStrCell (c : Option String) : String :=
  match c with
  | some s => s
  | none => "nan"

/-- The type the program actually reports for a chain-processed column:
`infer` discards the chain's tag strings (`inferred_dtypes` is a local it
never returns) and `tasks.process_file` reports `str(df[col].dtype)` of the
series assigned back to the dataframe. For the Numeric branch that series is
`pd.to_numeric`'s result, whose dtype is `toNumericDtype` of the coerced
strings and can disagree with the chain's tag; every other branch converts
the series to the dtype its tag names (bool, complex128, datetime64[ns],
timedelta64[ns], category, object), so the tag passes through. (The
datetime unit reported after the polars round-trip is modelled as ns, the
unit the source's dtype check normalizes toward.) -/
def reportedDtype (strs : Col) (tag : String) : String :=
  if tag = "int64" ∨ tag = "float64" then toNumericDtype strs else tag

/-- The object-column body of `infer` (lines 57-62): clean the column, then
`astype(str).str.strip()`, then run the detector chain; the column's
reported type is the pandas dtype of the resulting series, not the chain's
discarded tag string. After the cast the column holds no nulls. -/
def processObjectColumn (raw : Col) (sampleSize : Nat) : Except PyErr (List OutCell × String) :=
  let cleaned := cleanColumn raw
  let strs : Col := cleaned.map (fun c => some (pyStrip (astypeStrCell c)))
  match inferColumnType strs sampleSize with
  | .ok (out, tag) => .ok (out, reportedDtype strs tag)
  | .error e => .error e

/-! ## Table-level model of infer (lines 48-69)

The reader (`_read_file`) is external input here: a successfully-read table
arrives as named columns, each with the dtype polars/pandas assigned and its
cells. Object columns hold string-or-null cells; other dtypes hold typed
values that `_clean_column`'s string replacement cannot touch. -/

/-- A value in a freshly read pandas column. -/
inductive PValue where
  | null : PValue
  | str (s : String) : PValue
  | intv (i : Int) : PValue
  | floatv (q : ℚ) : PValue
  | boolv (b : Bool) : PValue
deriving DecidableEq

/-- `_clean_column` on a raw cell: only (exact) string cells equal to a null
token are replaced. -/
def cleanPValue (v : PValue) : PValue :=
  match v with
  | .str s => if nullTokens.contains s then .null else .str s
  | v => v

/-- Embed an untouched raw cell into the output-cell type. -/
def pvalueToOut : PValue → OutCell
  | .null => .null
  | .str s => .str s
  | .intv i => .numv (i : ℚ)
  | .floatv q => .numv q
  | .boolv b => .boolv b

/-- `astype(str)` on a raw object-column cell (non-string variants cannot
occur in reader-produced object columns; they stringify for totality). -/
def pvalueAsStr : PValue → String
  | .null => "nan"
  | .str s => s
  | .intv i => toString i
  | .floatv _ => "float"
  | .boolv b => if b then "True" else "False"

/-- One named, typed column as produced by the reader. -/
structure RawColumn where
  dtype : String
  cells : List PValue
deriving DecidableEq

/-- The per-column body of `infer`'s loop: every column is cleaned; only
columns whose dtype is `"object"` are stripped and run through the detector
chain, and what the column reports is the pandas dtype of the series the
chain assigned back (`str(df[col].dtype)` in `tasks.process_file`, via
`reportedDtype`) — any other column keeps its cells (cleaned) and its reader
dtype. -/
def processTableColumn (c : RawColumn) (sampleSize : Nat) : Except PyErr (List OutCell × String) :=
  let cleaned := c.cells.map cleanPValue
  if c.dtype = "object" then
    let strs : Col := cleaned.map (fun v => some (pyStrip (pvalueAsStr v)))
    match inferColumnType strs sampleSize with
    | .ok (out, tag) => .ok (out, reportedDtype strs tag)
    | .error e => .error e
  else
    .ok (cleaned.map pvalueToOut, c.dtype)

/-- All columns of a table, in order. -/
def processTable (tbl : List (String × RawColumn)) (sampleSize : Nat) :
    Except PyErr (List (String × (List OutCell × String))) :=
  mapExcept (fun p => (processTableColumn p.2 sampleSize).map (fun r => (p.1, r))) tbl

/-- `infer(file_path, sample_size)`: the two `time.time()` readings are the
external inputs `t0` (start) and `t1` (end); the returned pair is the typed
table and `processing_time = t1 - t0`. Any exception raised inside the body
is re-raised as `ValueError(f"Error reading file: {e!s}")`. -/
def inferModel (t0 t1 : ℚ) (tbl : List (String × RawColumn)) (sampleSize : Nat) :
    Except PyErr ((List (String × (List OutCell × String))) × ℚ) :=
  match processTable tbl sampleSize with
  | .ok r => .ok (r, t1 - t0)
  | .error e => .error (.valueError ("Error reading file: " ++ pyErrMsg e))

/-! ## DataFile (models.py) and DataTypeConfig.is_valid_type (constants.py) -/

/-- `DataTypeConfig.is_valid_type`: a string that is non-blank after
stripping (the argument is a string by construction here). -/
def isValidType (t : String) : Bool := ¬(pyStrip t).isEmpty

/-- The override-relevant state of a `DataFile` row: the two JSON fields
(either may be SQL null). -/
structure DataFileState where
  inferredTypes : Option (List (String × String))
  overriddenTypes : Option (List (String × String))
deriving DecidableEq

/-- Python truthiness of an optional dict. -/
def isTruthyDict : Option (List (String × String)) → Bool
  | some (_ :: _) => true
  | _ => false

/-- `DataFile.get_column_types`: `{}` when `inferred_types` is falsy,
otherwise a copy of `inferred_types` updated with `overridden_types` when
the latter is truthy. -/
def getColumnTypes (st : DataFileState) : List (String × String) :=
  match st.inferredTypes with
  | none => []
  | some m =>
      if m.isEmpty then []
      else if isTruthyDict st.overriddenTypes then dictUpdate m (st.overriddenTypes.getD [])
      else m

/-- `DataFile.validate_column_type`: the column must be a key of a truthy
`inferred_types` and the replacement must satisfy `is_valid_type`. -/
def validateColumnType (st : DataFileState) (columnName customType : String) :
    Except PyErr Unit :=
  match st.inferredTypes with
  | none => .error (.valueError ("Column " ++ columnName ++ " not found"))
  | some m =>
      if m.isEmpty ∨ (dictLookup m columnName).isNone then
        .error (.valueError ("Column " ++ columnName ++ " not found"))
      else if isValidType customType then .ok ()
      else .error (.valueError "Invalid type. Must be a string starting with a letter.")

/-- `DataFile.override_column_type`: validate, then assign into
`overridden_types or {}` and save. -/
def overrideColumnType (st : DataFileState) (columnName customType : String) :
    Except PyErr DataFileState :=
  match validateColumnType st columnName customType with
  | .error e => .error e
  | .ok _ =>
      .ok { st with
        overriddenTypes := some (dictSet (st.overriddenTypes.getD []) columnName customType) }

end RhombusVerif

namespace RhombusVerif

/-! ## Supporting lemmas -/

/-- A per-value apply that succeeds preserves the column length. -/
theorem mapExcept_length (f : α → Except PyErr β) (l : List α) (r : List β)
    (h : mapExcept f l = .ok r) : r.length = l.length := by
  induction l generalizing r with
  | nil =>
      unfold mapExcept at h
      cases h
      rfl
  | cons a t ih =>
      unfold mapExcept at h
      cases hf : f a with
      | error e => rw [hf] at h; cases h
      | ok b =>
          rw [hf] at h
          cases ht : mapExcept f t with
          | error e => rw [ht] at h; cases h
          | ok bs =>
              rw [ht] at h
              cases h
              simp [ih bs ht]

theorem inferBoolean_length (bmap : List (String × Bool)) (col : Col) (out : List OutCell)
    (h : inferBoolean bmap col = some out) : out.length = col.length := by
  unfold inferBoolean at h
  split at h
  · cases h; simp
  · cases h

theorem inferComplex_length (col : Col) (out : List OutCell)
    (h : inferComplex col = .ok (some out)) : out.length = col.length := by
  unfold inferComplex at h
  split at h
  · cases hm : mapExcept complexApplyCell col with
    | error e => rw [hm] at h; cases h
    | ok o =>
        rw [hm] at h
        replace h : (if o.any isComplexCell = true then Except.ok (some o)
            else Except.ok none) = Except.ok (some out) := h
        by_cases ha : o.any isComplexCell = true
        · rw [if_pos ha] at h
          cases h
          exact mapExcept_length _ _ _ hm
        · rw [if_neg ha] at h
          cases h
  · cases h

theorem inferNumeric_length (col : Col) (out : List OutCell) (dt : String)
    (h : inferNumeric col = some (out, dt)) : out.length = col.length := by
  simp only [inferNumeric] at h
  split at h
  · cases h; simp
  · cases h

theorem polarsToDatetime_length (col : Col) (out : List OutCell)
    (h : polarsToDatetime col = .ok out) : out.length = col.length := by
  unfold polarsToDatetime at h
  split at h
  · cases h; simp
  · split at h
    · cases h; simp
    · cases h

theorem pandasToDatetimeCoerce_length (col : Col) :
    (pandasToDatetimeCoerce col).length = col.length := by
  simp [pandasToDatetimeCoerce]

theorem inferDatetime_claimed_length (col : Col) (n : Nat) (out : List OutCell)
    (h : inferDatetime col n = .claimed out) : out.length = col.length := by
  simp only [inferDatetime] at h
  split at h
  · split at h
    · rename_i o ho
      cases h
      exact polarsToDatetime_length _ _ ho
    · split at h
      · cases h
        exact pandasToDatetimeCoerce_length col
      · cases h
  · cases h

theorem inferDatetime_declinedMutated_length (col : Col) (n : Nat) (out : List OutCell)
    (h : inferDatetime col n = .declinedMutated out) : out.length = col.length := by
  simp only [inferDatetime] at h
  split at h
  · split at h
    · cases h
    · split at h
      · cases h
      · cases h
        exact pandasToDatetimeCoerce_length col
  · cases h

theorem inferTimedelta_length (col : Col) (out : List OutCell)
    (h : inferTimedelta col = .ok (some out)) : out.length = col.length := by
  unfold inferTimedelta at h
  split at h
  · cases hm : mapExcept parseTimedeltaCell col with
    | error e => rw [hm] at h; cases h
    | ok o => rw [hm] at h; cases h; exact mapExcept_length _ _ _ hm
  · cases h

theorem inferCategorical_length (col : Col) (out : List OutCell) (dt : String)
    (h : inferCategorical col = .ok (out, dt)) : out.length = col.length := by
  unfold inferCategorical at h
  split at h
  · cases h
  · split at h <;> (cases h; simp)

/-- Whatever detector claims a column, a successful chain run preserves the
column length. -/
theorem inferColumnType_length (col : Col) (n : Nat) (out : List OutCell) (dt : String)
    (h : inferColumnType col n = .ok (out, dt)) : out.length = col.length := by
  unfold inferColumnType at h
  cases hb : inferBoolean booleanMapping col with
  | some o => rw [hb] at h; cases h; exact inferBoolean_length _ _ _ hb
  | none =>
      rw [hb] at h
      cases hc : inferComplex col with
      | error e => rw [hc] at h; cases h
      | ok co =>
          rw [hc] at h
          cases co with
          | some o => cases h; exact inferComplex_length _ _ hc
          | none =>
              cases hn : inferNumeric col with
              | some p =>
                  obtain ⟨o, d⟩ := p
                  rw [hn] at h; cases h; exact inferNumeric_length _ _ _ hn
              | none =>
                  rw [hn] at h
                  cases hd : inferDatetime col n with
                  | claimed o =>
                      rw [hd] at h
                      cases h
                      exact inferDatetime_claimed_length _ _ _ hd
                  | declinedMutated o =>
                      rw [hd] at h
                      replace h : (if o.length = 0 then Except.error PyErr.zeroDivisionError
                          else Except.ok (o, "category")) = Except.ok (out, dt) := h
                      split at h
                      · cases h
                      · cases h
                        exact inferDatetime_declinedMutated_length _ _ _ hd
                  | declined =>
                      rw [hd] at h
                      cases ht : inferTimedelta col with
                      | error e => rw [ht] at h; cases h
                      | ok tco =>
                          rw [ht] at h
                          cases tco with
                          | some o => cases h; exact inferTimedelta_length _ _ ht
                          | none => exact inferCategorical_length _ _ _ h

/-- Looking up the key just assigned by a dict assignment. -/
theorem dictLookup_dictSet_self (m : List (String × α)) (c : String) (t : α) :
    dictLookup (dictSet m c t) c = some t := by
  induction m with
  | nil => simp [dictSet, dictLookup]
  | cons p rest ih =>
      by_cases hp : p.1 = c
      · simp only [dictSet]
        rw [if_pos hp]
        simp [dictLookup]
      · simp only [dictSet]
        rw [if_neg hp]
        simp only [dictLookup] at ih ⊢
        rw [List.find?_cons_of_neg]
        · exact ih
        · simpa using hp

/-- Dict assignment leaves every other key's lookup unchanged. -/
theorem dictLookup_dictSet_ne (m : List (String × α)) (c c' : String) (t : α)
    (h : c' ≠ c) : dictLookup (dictSet m c t) c' = dictLookup m c' := by
  have hcc : ¬ c = c' := fun hcc2 => h hcc2.symm
  induction m with
  | nil =>
      simp only [dictSet, dictLookup]
      rw [List.find?_cons_of_neg _ (by simpa using hcc)]
  | cons p rest ih =>
      by_cases hp : p.1 = c
      · simp only [dictSet]
        rw [if_pos hp]
        simp only [dictLookup]
        rw [List.find?_cons_of_neg _ (by simpa using hcc),
          List.find?_cons_of_neg _ (by simpa [hp] using hcc)]
      · simp only [dictSet]
        rw [if_neg hp]
        by_cases hp' : p.1 = c'
        · simp only [dictLookup]
          rw [List.find?_cons_of_pos _ (by simpa using hp'),
            List.find?_cons_of_pos _ (by simpa using hp')]
        · simp only [dictLookup] at ih ⊢
          rw [List.find?_cons_of_neg _ (by simpa using hp'),
            List.find?_cons_of_neg _ (by simpa using hp')]
          exact ih

end RhombusVerif

namespace RhombusVerif

/-! ## Claim theorems -/

/-- C1: the claim says the pipeline raises no error on a successfully-read
table. The code disagrees: in a column holding the values "1+2j" and "a-b",
the Complex detector feeds "a-b" (it contains a minus) to `complex()`, which
raises ValueError; `infer` re-raises it as
`ValueError("Error reading file: ...")`. Evaluated at that failing input both
at column level and at pipeline level. -/
theorem claim1_pipeline_raises_on_complex_values :
    processObjectColumn [some "1+2j", some "a-b"] 1000 =
      .error (.valueError "complex() arg is a malformed string: a-b")
    ∧ inferModel 0 1 [("c", ⟨"object", [.str "1+2j", .str "a-b"]⟩)] 1000 =
      .error (.valueError "Error reading file: complex() arg is a malformed string: a-b") :=
  ⟨rfl, rfl⟩

/-- C2 counterexample: the claim says a zero-row column classifies as
Categorical. It does not: the Boolean detector's vacuous `.all()` claims the
empty column first, so the chain answers "bool". -/
theorem claim2_empty_not_categorical_cex :
    inferColumnType [] 1000 = .ok ([], "bool")
    ∧ ("bool" : String) ≠ "category" ∧ ("bool" : String) ≠ "object" := by
  refine ⟨rfl, by decide, by decide⟩

/-- C2 amended: a column with zero rows is classified Boolean (for every
sample size), not Categorical, and no error occurs; the categorical
fallback's `unique_ratio` division carries no zero-rows guard — evaluated on
an empty column it raises ZeroDivisionError — but the Boolean detector keeps
an empty column from ever reaching it. -/
theorem claim2_empty_column_boolean :
    ∀ sampleSize : Nat,
      inferColumnType [] sampleSize = .ok ([], "bool")
      ∧ inferCategorical [] = .error .zeroDivisionError :=
  fun _ => ⟨rfl, rfl⟩

/-- C3 counterexample: the claim says a cell that is null after null-token
normalization stays null in the typed output. In the column
["None", "a", "b"] the first cell is null after cleaning, yet the typed
(Text) output holds the literal string "nan" there: the pipeline's
`astype(str)` stringifies the null before the detectors run. -/
theorem claim3_null_position_not_preserved_cex :
    cleanColumn [some "None", some "a", some "b"] = [none, some "a", some "b"]
    ∧ processObjectColumn [some "None", some "a", some "b"] 1000 =
        .ok ([.str "nan", .str "a", .str "b"], "object")
    ∧ OutCell.str "nan" ≠ OutCell.null := by
  refine ⟨rfl, rfl, by decide⟩

/-- C3 amended: whichever detector claims the column, a successful run of
the pipeline on an object column produces a typed column of exactly the
input length (the null-preservation half of the original claim is false, see
the counterexample). -/
theorem claim3_length_preserved (raw : Col) (sampleSize : Nat) (out : List OutCell)
    (dt : String) (h : processObjectColumn raw sampleSize = .ok (out, dt)) :
    out.length = raw.length := by
  simp only [processObjectColumn] at h
  cases hic : inferColumnType
      ((cleanColumn raw).map (fun c => some (pyStrip (astypeStrCell c)))) sampleSize with
  | ok p =>
      obtain ⟨o, tg⟩ := p
      rw [hic] at h
      replace h : Except.ok (o,
          reportedDtype ((cleanColumn raw).map (fun c => some (pyStrip (astypeStrCell c)))) tg) =
          Except.ok (out, dt) := h
      cases h
      have := inferColumnType_length _ _ _ _ hic
      simpa [cleanColumn] using this
  | error e =>
      rw [hic] at h
      cases h

/-- Witness for C3's amended theorem at a concrete one-cell column. -/
theorem claim3_length_preserved_witness :
    ([OutCell.str "x"].length = ([some "x"] : Col).length) :=
  claim3_length_preserved [some "x"] 5 [OutCell.str "x"] "object" rfl

/-- C4 counterexample: the claim says that on success null values remain
null. They do not: on the column [True, null] the Boolean detector claims
(the single non-null value is a key) and the final `astype("bool")` turns
the unmapped null into `True`. -/
theorem claim4_null_becomes_true_cex :
    inferBoolean booleanMapping [some "True", none] =
      some [.boolv true, .boolv true]
    ∧ OutCell.boolv true ≠ OutCell.null := by
  refine ⟨rfl, by decide⟩

/-- C8: the claim says the Complex detector parses every pattern-matching
value, nulls every non-matching value and never raises. The code disagrees
twice: "(1+2j" matches the pattern (the two parentheses are independently
optional) yet `complex("(1+2j")` raises, aborting the column; and the
non-matching value "-5" is converted to the complex number (-5+0j) rather
than null, because the conversion guard is "contains '+' or '-'", not the
regex. Evaluated at both failing inputs. -/
theorem claim8_complex_detector_raises :
    reFullMatch complexRE "(1+2j" = true
    ∧ inferComplex [some "(1+2j"] =
        .error (.valueError "complex() arg is a malformed string: (1+2j")
    ∧ reFullMatch complexRE "-5" = false
    ∧ inferComplex [some "1+2j", some "-5"] =
        .ok (some [.complexv 1 2, .complexv (-5) 0]) := by
  refine ⟨rfl, rfl, rfl, rfl⟩

end RhombusVerif


namespace RhombusVerif

/-- C4 amended: the Boolean detector claims a column iff every non-null
value, lower-cased, is a key of the boolean mapping; on success every
non-null value maps to its boolean — but null values do not remain null:
the final `astype("bool")` coerces the unmapped nulls to `True` (see the
counterexample). In the pipeline the detector never actually receives a
null, because `astype(str)` has already stringified nulls to "nan", a
non-key — so a column of boolean tokens with missing entries is not even
claimed there. -/
theorem claim4_boolean_detector_amended (col : Col) :
    ((inferBoolean booleanMapping col).isSome = true ↔
      ∀ s ∈ col.filterMap id, (dictLookup booleanMapping (pyLower s)).isSome = true)
    ∧ (∀ out, inferBoolean booleanMapping col = some out →
        (∀ (i : Nat) (s : String), col[i]? = some (some s) →
          out[i]? = some (OutCell.boolv ((dictLookup booleanMapping (pyLower s)).getD true)))
        ∧ (∀ i : Nat, col[i]? = some none → out[i]? = some (OutCell.boolv true))) := by
  constructor
  · unfold inferBoolean
    split
    · rename_i hall
      simp only [Option.isSome_some, true_iff]
      intro s hs
      exact List.all_eq_true.mp hall s hs
    · rename_i hall
      simp only [Option.isSome_none, Bool.false_eq_true, false_iff]
      intro hforall
      exact hall (List.all_eq_true.mpr hforall)
  · intro out hout
    unfold inferBoolean at hout
    split at hout
    · injection hout with hout'
      subst hout'
      constructor
      · intro i s hi
        rw [List.getElem?_map, hi]
        cases hd : dictLookup booleanMapping (pyLower s) <;> simp [hd]
      · intro i hi
        rw [List.getElem?_map, hi]
        rfl
    · cases hout

/-- Witness for C4's amended theorem at the column [Yes, null]. -/
theorem claim4_boolean_detector_amended_witness :
    (inferBoolean booleanMapping [some "Yes", none]).isSome = true
    ∧ ([OutCell.boolv true, OutCell.boolv true] : List OutCell)[1]? =
        some (OutCell.boolv true) :=
  ⟨(claim4_boolean_detector_amended [some "Yes", none]).1.mpr (by decide),
   ((claim4_boolean_detector_amended [some "Yes", none]).2
     [OutCell.boolv true, OutCell.boolv true] rfl).2 1 rfl⟩

/-- Helper: a nonempty all-digit run is consumed whole by the float-literal
parser, with its integer value. -/
theorem parseFloatLit_digits (r : List Char) (h1 : r ≠ [])
    (h2 : r.all Char.isDigit = true) :
    parseFloatLit r = some ((digitsToNat r : ℚ), []) := by
  have hdrop : r.dropWhile Char.isDigit = [] := by
    rw [List.dropWhile_eq_nil_iff]
    intro c hc
    exact List.all_eq_true.mp h2 c hc
  have htake : r.takeWhile Char.isDigit = r := by
    conv_rhs => rw [← List.takeWhile_append_dropWhile Char.isDigit r]
    rw [hdrop, List.append_nil]
  simp only [parseFloatLit, htake, hdrop]
  rw [if_neg]
  simp [List.isEmpty_iff, h1]

/-- Helper: an int64 integer literal always coerces to a non-NaN number
under `pd.to_numeric`. -/
theorem isIntLit_coerces (s : String) (h : isIntLit s = true) :
    (toNumericCell (some s)).isSome = true := by
  rcases hsp : splitSign s.toList with ⟨neg, r⟩
  simp only [isIntLit, hsp, Bool.and_eq_true, Bool.not_eq_true'] at h
  obtain ⟨⟨hne, hdig⟩, -⟩ := h
  have h1 : r ≠ [] := by
    intro hr
    subst hr
    simp at hne
  simp only [toNumericCell, Option.some_bind, pyNumParse, hsp]
  rw [parseFloatLit_digits r h1 hdig]
  rfl

/-- C5: for every column claimed by the Numeric detector (at least one value
coerces to a non-NaN number), the type the program observably assigns — the
pandas dtype of the coerced series, which `tasks.process_file` reports from
`df.dtypes` (`_infer_numeric`'s own tag string is a discarded local) — is
Integer only if every non-null value coerced with no failure and no value
required a non-integer representation; it is Float as soon as any coercion
failed, any value was written in a non-integer form, or any cell is blank.
A fully integer-numeric column with no missing values reports Integer and
one blank cell flips the report to Float, shown generally and by pipeline
evaluation (including the fractional column ["1.5","2.5"], which reports
float64). -/
theorem claim5_numeric_observable_type :
    (∀ col : Col,
      ((inferNumeric col).isSome = true ↔
        0 < (col.map toNumericCell).countP (fun c => c.isSome))
      ∧ (toNumericDtype col = "int64" →
          ∀ s ∈ col.filterMap id,
            (toNumericCell (some s)).isSome = true ∧ isIntLit s = true)
      ∧ ((∃ s ∈ col.filterMap id, (toNumericCell (some s)).isSome = false) →
          toNumericDtype col = "float64")
      ∧ ((∃ s ∈ col.filterMap id, isIntLit s = false) →
          toNumericDtype col = "float64")
      ∧ (none ∈ col → toNumericDtype col = "float64")
      ∧ (col ≠ [] → (∀ c ∈ col, ∃ s, c = some s ∧ isIntLit s = true) →
          (inferNumeric col).isSome = true ∧ toNumericDtype col = "int64"))
    ∧ (processObjectColumn [some "1", some "2"] 1000).map Prod.snd = .ok "int64"
    ∧ (processObjectColumn [some "1", none, some "2"] 1000).map Prod.snd = .ok "float64"
    ∧ (processObjectColumn [some "1.5", some "2.5"] 1000).map Prod.snd = .ok "float64" := by
  refine ⟨?_, rfl, rfl, rfl⟩
  intro col
  have hnotall : ¬ col.all intLitCell = true → toNumericDtype col = "float64" := by
    intro hna
    simp only [toNumericDtype]
    rw [if_neg hna]
  refine ⟨?_, ?_, ?_, ?_, ?_, ?_⟩
  · simp only [inferNumeric]
    split
    · rename_i hpos
      simpa using hpos
    · rename_i hpos
      simpa using hpos
  · intro hdt s hs
    have hall : col.all intLitCell = true := by
      by_contra hna
      rw [hnotall hna] at hdt
      exact absurd hdt (by decide)
    obtain ⟨c, hc, hcs⟩ := List.mem_filterMap.mp hs
    rw [id_eq] at hcs
    subst hcs
    have : intLitCell (some s) = true := List.all_eq_true.mp hall _ hc
    exact ⟨isIntLit_coerces s this, this⟩
  · rintro ⟨s, hs, hfail⟩
    refine hnotall ?_
    intro hall
    obtain ⟨c, hc, hcs⟩ := List.mem_filterMap.mp hs
    rw [id_eq] at hcs
    subst hcs
    have : intLitCell (some s) = true := List.all_eq_true.mp hall _ hc
    rw [isIntLit_coerces s this] at hfail
    cases hfail
  · rintro ⟨s, hs, hnl⟩
    refine hnotall ?_
    intro hall
    obtain ⟨c, hc, hcs⟩ := List.mem_filterMap.mp hs
    rw [id_eq] at hcs
    subst hcs
    have hl : intLitCell (some s) = true := List.all_eq_true.mp hall _ hc
    simp only [intLitCell] at hl
    rw [hl] at hnl
    cases hnl
  · intro hmem
    refine hnotall ?_
    intro hall
    have : intLitCell none = true := List.all_eq_true.mp hall none hmem
    cases this
  · intro hne hlit
    constructor
    · cases col with
      | nil => exact absurd rfl hne
      | cons c0 rest =>
          obtain ⟨s0, hc0, hl0⟩ := hlit c0 (List.mem_cons_self c0 rest)
          have hsome : (toNumericCell c0).isSome = true := by
            rw [hc0]
            exact isIntLit_coerces s0 hl0
          simp only [inferNumeric]
          rw [if_pos]
          · rfl
          · rw [List.countP_pos_iff]
            exact ⟨toNumericCell c0, List.mem_map_of_mem toNumericCell
              (List.mem_cons_self c0 rest), hsome⟩
    · simp only [toNumericDtype]
      rw [if_pos]
      rw [List.all_eq_true]
      intro c hc
      obtain ⟨s, hcs, hl⟩ := hlit c hc
      rw [hcs]
      exact hl

/-- Witness for C5 at the one-cell column ["7"]: the fully-numeric direction
with its hypotheses discharged concretely. -/
theorem claim5_numeric_observable_type_witness :
    (inferNumeric [some "7"]).isSome = true
    ∧ toNumericDtype [some "7"] = "int64" :=
  ((claim5_numeric_observable_type.1 [some "7"]).2.2.2.2.2 (by decide)
    (by decide))

end RhombusVerif

namespace RhombusVerif

/-- C6 counterexample: the claim says the detector claims a column if and
only if the sampled match fraction strictly exceeds 0.5. The only-if
direction fails: in the column ["99/99/9999", "98/98/9998", "97/97/9997"]
every sampled value (100%) matches the two-digit slash date pattern, yet no
value is a parseable date — polars format inference raises ComputeError and
the pandas coerce fallback yields no non-null value — so the detector
declines and the all-NaT mutated column falls through to the categorical
fallback ("category", not "datetime64[ns]"). -/
theorem claim6_threshold_not_sufficient_cex :
    (sampleOfColumn [some "99/99/9999", some "98/98/9998", some "97/97/9997"] 1000).length = 3
    ∧ (sampleOfColumn [some "99/99/9999", some "98/98/9998", some "97/97/9997"] 1000).countP
        matchesAnyDate = 3
    ∧ inferDatetime [some "99/99/9999", some "98/98/9998", some "97/97/9997"] 1000 =
        .declinedMutated [.null, .null, .null]
    ∧ (inferColumnType [some "99/99/9999", some "98/98/9998", some "97/97/9997"] 1000).map
        Prod.snd = .ok "category"
    ∧ ("category" : String) ≠ "datetime64[ns]" :=
  ⟨rfl, rfl, rfl, rfl, by decide⟩

/-- C6 amended: the 0.5 threshold on the fixed-seed sample is necessary for
the Datetime detector to claim — at or below it the detector declines and
leaves the column untouched (so a 40% sample is never Datetime) — and it is
sufficient exactly when the bulk conversion does not raise: if polars format
inference fails and the pandas coerce fallback parses nothing, the detector
declines despite the threshold, leaving the coerced all-NaT series in the
column's place (see the counterexample). Concretely, a 60%-matching sample
of parseable dates is classified "datetime64[ns]" and a 40% sample falls
through to "object". -/
theorem claim6_datetime_threshold_amended :
    (∀ (col : Col) (sampleSize : Nat),
      (¬ (sampleOfColumn col sampleSize).length <
          2 * (sampleOfColumn col sampleSize).countP matchesAnyDate →
        inferDatetime col sampleSize = .declined)
      ∧ (dtClaims (inferDatetime col sampleSize) = true →
          (sampleOfColumn col sampleSize).length <
            2 * (sampleOfColumn col sampleSize).countP matchesAnyDate)
      ∧ (∀ out, (sampleOfColumn col sampleSize).length <
            2 * (sampleOfColumn col sampleSize).countP matchesAnyDate →
          polarsToDatetime col = .ok out →
          inferDatetime col sampleSize = .claimed out))
    ∧ (sampleOfColumn [some "2020-01-01", some "2021-02-03", some "2022-03-04",
        some "foo", some "bar"] 1000).length = 5
    ∧ (sampleOfColumn [some "2020-01-01", some "2021-02-03", some "2022-03-04",
        some "foo", some "bar"] 1000).countP matchesAnyDate = 3
    ∧ (inferColumnType [some "2020-01-01", some "2021-02-03", some "2022-03-04",
        some "foo", some "bar"] 1000).map Prod.snd = .ok "datetime64[ns]"
    ∧ (sampleOfColumn [some "2020-01-01", some "2021-02-03", some "xx",
        some "foo", some "bar"] 1000).countP matchesAnyDate = 2
    ∧ (inferColumnType [some "2020-01-01", some "2021-02-03", some "xx",
        some "foo", some "bar"] 1000).map Prod.snd = .ok "object" := by
  refine ⟨?_, rfl, rfl, rfl, rfl, rfl⟩
  intro col sampleSize
  refine ⟨?_, ?_, ?_⟩
  · intro hthr
    simp only [inferDatetime]
    rw [if_neg hthr]
  · intro hcl
    by_cases hthr : (sampleOfColumn col sampleSize).length <
        2 * (sampleOfColumn col sampleSize).countP matchesAnyDate
    · exact hthr
    · simp only [inferDatetime] at hcl
      rw [if_neg hthr] at hcl
      simp [dtClaims] at hcl
  · intro out hthr hok
    simp only [inferDatetime]
    rw [if_pos hthr, hok]

/-- Witness for C6's amended theorem: the below-threshold direction at a
one-cell column with no date-like value. -/
theorem claim6_datetime_threshold_amended_witness :
    inferDatetime [some "x"] 5 = .declined :=
  (claim6_datetime_threshold_amended.1 [some "x"] 5).1 (by decide)

/-- C7: classification is deterministic. The only run-to-run inputs of
`infer` beyond the table are the two wall-clock readings (which only affect
the reported elapsed time) and the datetime sample, which is drawn with the
fixed seed `random_state=1`: the typed table and column types are a function
of the table and the sample size alone, so two runs on identical input give
identical classification decisions. -/
theorem claim7_inference_deterministic (t0 t1 u0 u1 : ℚ)
    (tbl : List (String × RawColumn)) (sampleSize : Nat) :
    (inferModel t0 t1 tbl sampleSize).map Prod.fst =
      (inferModel u0 u1 tbl sampleSize).map Prod.fst := by
  unfold inferModel
  cases h : processTable tbl sampleSize <;> rfl

/-- C9: overriding a column of a fresh inferred result yields an effective
mapping equal to the inferred mapping with exactly that entry replaced; the
overridden column reads back as the new value, every other column reads its
inferred value, the stored inferred mapping is untouched, and a second
override on the same column replaces the first. -/
theorem claim9_override_roundtrip
    (m : List (String × String)) (c t t2 : String)
    (hc : (dictLookup m c).isSome = true)
    (ht : isValidType t = true)
    (ht2 : isValidType t2 = true) :
    ∃ stA, overrideColumnType ⟨some m, none⟩ c t = .ok stA
      ∧ getColumnTypes stA = dictSet m c t
      ∧ dictLookup (getColumnTypes stA) c = some t
      ∧ (∀ c', c' ≠ c → dictLookup (getColumnTypes stA) c' = dictLookup m c')
      ∧ stA.inferredTypes = some m
      ∧ ∃ stB, overrideColumnType stA c t2 = .ok stB
          ∧ getColumnTypes stB = dictSet m c t2
          ∧ dictLookup (getColumnTypes stB) c = some t2 := by
  have hm : m.isEmpty = false := by
    cases m with
    | nil => simp [dictLookup] at hc
    | cons p rest => rfl
  have hnone : (dictLookup m c).isNone = false := by
    cases hdl : dictLookup m c with
    | none => rw [hdl] at hc; cases hc
    | some v => rfl
  have hval : ∀ ty : String, isValidType ty = true →
      validateColumnType ⟨some m, none⟩ c ty = .ok () := by
    intro ty hty
    simp [validateColumnType, hm, hnone, hty]
  have hval' : ∀ ty : String, isValidType ty = true →
      validateColumnType ⟨some m, some [(c, t)]⟩ c ty = .ok () := by
    intro ty hty
    simp [validateColumnType, hm, hnone, hty]
  have hstep : overrideColumnType ⟨some m, none⟩ c t = .ok ⟨some m, some [(c, t)]⟩ := by
    unfold overrideColumnType
    rw [hval t ht]
    rfl
  have heff : getColumnTypes ⟨some m, some [(c, t)]⟩ = dictSet m c t := by
    unfold getColumnTypes
    simp [hm, isTruthyDict, dictUpdate]
  have hstep2 : overrideColumnType ⟨some m, some [(c, t)]⟩ c t2 =
      .ok ⟨some m, some [(c, t2)]⟩ := by
    unfold overrideColumnType
    rw [hval' t2 ht2]
    simp [dictSet]
  have heff2 : getColumnTypes ⟨some m, some [(c, t2)]⟩ = dictSet m c t2 := by
    unfold getColumnTypes
    simp [hm, isTruthyDict, dictUpdate]
  refine ⟨⟨some m, some [(c, t)]⟩, hstep, heff, ?_, ?_, rfl,
    ⟨some m, some [(c, t2)]⟩, hstep2, heff2, ?_⟩
  · rw [heff]
    exact dictLookup_dictSet_self m c t
  · intro c' hc'
    rw [heff]
    exact dictLookup_dictSet_ne m c c' t hc'
  · rw [heff2]
    exact dictLookup_dictSet_self m c t2

/-- Witness for C9 on a two-column inferred result. -/
theorem claim9_override_roundtrip_witness :
    ∃ stA, overrideColumnType ⟨some [("col1", "int64"), ("col2", "object")], none⟩
        "col1" "custom_label" = .ok stA
      ∧ getColumnTypes stA = dictSet [("col1", "int64"), ("col2", "object")] "col1" "custom_label"
      ∧ dictLookup (getColumnTypes stA) "col1" = some "custom_label"
      ∧ (∀ c', c' ≠ "col1" →
          dictLookup (getColumnTypes stA) c' =
            dictLookup [("col1", "int64"), ("col2", "object")] c')
      ∧ stA.inferredTypes = some [("col1", "int64"), ("col2", "object")]
      ∧ ∃ stB, overrideColumnType stA "col1" "other_label" = .ok stB
          ∧ getColumnTypes stB =
              dictSet [("col1", "int64"), ("col2", "object")] "col1" "other_label"
          ∧ dictLookup (getColumnTypes stB) "col1" = some "other_label" :=
  claim9_override_roundtrip [("col1", "int64"), ("col2", "object")]
    "col1" "custom_label" "other_label" rfl rfl rfl

/-- C10: a column whose reader dtype is not "object" bypasses the strip and
the whole detector chain: its cells pass through unchanged apart from
null-token replacement (which only affects string cells equal to a null
token) and its reported dtype is exactly the reader's. -/
theorem claim10_non_object_passthrough (c : RawColumn) (sampleSize : Nat)
    (h : c.dtype ≠ "object") :
    processTableColumn c sampleSize =
      .ok ((c.cells.map cleanPValue).map pvalueToOut, c.dtype)
    ∧ ∀ v : PValue, (∀ s, v = PValue.str s → nullTokens.contains s = false) →
        cleanPValue v = v := by
  constructor
  · simp only [processTableColumn]
    rw [if_neg h]
  · intro v hv
    cases v with
    | str s =>
        simp only [cleanPValue]
        rw [if_neg]
        simpa using hv s rfl
    | null => rfl
    | intv i => rfl
    | floatv q => rfl
    | boolv b => rfl

/-- Witness for C10 on a reader-typed int64 column. -/
theorem claim10_non_object_passthrough_witness :
    processTableColumn ⟨"int64", [PValue.intv 1, PValue.intv 2]⟩ 0 =
      .ok (([PValue.intv 1, PValue.intv 2].map cleanPValue).map pvalueToOut, "int64") :=
  (claim10_non_object_passthrough ⟨"int64", [PValue.intv 1, PValue.intv 2]⟩ 0
    (by decide)).1

end RhombusVerif
